import Mathlib

/-!
Shallow embedding of the repository's two video smoke-test scripts,
`src/video_test.py` (class `VideoStreamTest`) and `src/video_tester2.py`
(class `SimpleVideoTester`).

Modelling conventions:
* Every browser-driver (Selenium) call a run makes is a field of an
  environment record holding the call's outcome for that run: `Except Err α`
  is a call that returns an `α` or raises.  Python's bare `except Exception`
  corresponds to catching every `Err`.
* Wall-clock polling (`while time.time() - start_time < timeout` with
  `time.sleep(1)`) is modelled by an explicit fuel bound, one unit of fuel
  per loop iteration, with the page state at the i-th poll given by a
  function `polls : Nat → PollStatus`.
* Python floats (video `currentTime`, `duration`) are modelled as `ℚ`.
* `try/finally driver.quit()` is modelled by an explicit `quit` flag in the
  outcome record, set on every path of the embedded function.
* The JSON files the scripts write with `json.dump` are modelled as `Json`
  values; `json.dump` followed by `json.load` reproduces the value.
-/

/-- Python's `abs` on a rational, written as an explicit sign test so that
it is computable by reduction. -/
def ratAbs (q : ℚ) : ℚ := if q < 0 then -q else q

/-- A JSON value, modelling what the scripts pass to `json.dump`. -/
inductive Json where
  | null : Json
  | bool : Bool → Json
  | num : ℚ → Json
  | str : String → Json
  | arr : List Json → Json
  | obj : List (String × Json) → Json

/-- Depth-bounded scan of a JSON value: does the string `s` occur in it,
either as an object key or as a string leaf?  `fuel` bounds the nesting
depth inspected, so the scan is exact on any value of depth at most `fuel`. -/
def Json.mentionsF (s : String) : Nat → Json → Bool
  | 0, _ => false
  | _ + 1, .null => false
  | _ + 1, .bool _ => false
  | _ + 1, .num _ => false
  | _ + 1, .str t => t == s
  | fuel + 1, .arr xs => xs.any (Json.mentionsF s fuel)
  | fuel + 1, .obj fs => fs.any (fun kv => kv.1 == s || Json.mentionsF s fuel kv.2)

/-- The keys of a top-level JSON object. -/
def Json.topKeys : Json → List String
  | .obj fs => fs.map Prod.fst
  | _ => []

/-- An exception raised by a call the scripts make (Selenium driver errors,
JS script errors, timeouts, `IndexError` from list indexing, I/O errors on
file writes).  The scripts only ever catch bare `Exception`, which covers
all of these. -/
inductive Err where
  | noSuchElement : Err
  | scriptError : Err
  | timeout : Err
  | indexError : Err
  | ioError : Err
deriving DecidableEq

/-- Message text of an exception, `str(e)` in Python. -/
def Err.message : Err → String
  | .noSuchElement => "no such element"
  | .scriptError => "script error"
  | .timeout => "timeout"
  | .indexError => "list index out of range"
  | .ioError => "io error"

namespace VideoTest

/-- The `StreamMetrics` dataclass of video_test.py.  `playback_time` is the
video element's `currentTime` (a Python float, modelled as `ℚ`). -/
structure StreamMetrics where
  buffer_count : Nat
  playback_time : ℚ
  current_quality : String
  timestamp : String
deriving DecidableEq

/-- A DOM element handle, as returned by `find_element` / `find_elements`. -/
structure Elem where
  id : Nat
deriving DecidableEq

/-- Outcomes of the driver calls one call of `run_all_tests` makes, in
program order.  `test_playback_start` runs `play()` (`playScript`) and then
`collect_metrics` (`playMetrics`); `test_quality_switch` clicks the
quality-selector (`selectorClick`), fetches the option elements
(`qualityOptions`, a `find_elements` call that returns a possibly short
list), clicks one (`optionClick`) and collects metrics (`qualityMetrics`);
`test_seek` sets `currentTime` (`seekScript`) and collects metrics
(`seekMetrics`).  `saveOk` is the outcome of the report file write in
`save_report`. -/
structure Env where
  playScript : Except Err Unit
  playMetrics : Except Err StreamMetrics
  selectorClick : Except Err Unit
  qualityOptions : Except Err (List Elem)
  optionClick : Elem → Except Err Unit
  qualityMetrics : Except Err StreamMetrics
  seekScript : Except Err Unit
  seekMetrics : Except Err StreamMetrics
  saveOk : Except Err Unit

/-- `VideoStreamTest.test_playback_start`: play, sleep, collect metrics,
append them to the metrics log and return `playback_time > 0`; any
exception is caught and the method returns `False` (log unchanged). -/
def test_playback_start (env : Env) (log : List StreamMetrics) :
    Bool × List StreamMetrics :=
  match env.playScript with
  | .error _ => (false, log)
  | .ok _ =>
    match env.playMetrics with
    | .error _ => (false, log)
    | .ok m => (decide (0 < m.playback_time), log ++ [m])

/-- Outcome of `test_quality_switch`: the returned boolean, the metrics log
after the call, and which option element (if any) the method clicked. -/
structure QualityOutcome where
  passed : Bool
  log : List StreamMetrics
  clicked : Option Elem
deriving DecidableEq

/-- `VideoStreamTest.test_quality_switch`: click the quality selector, fetch
the `quality-option` elements, click `quality_options[1]` (an `IndexError`
when fewer than two match), collect metrics and return `True`; any
exception is caught and the method returns `False`. -/
def test_quality_switch (env : Env) (log : List StreamMetrics) :
    QualityOutcome :=
  match env.selectorClick with
  | .error _ => ⟨false, log, none⟩
  | .ok _ =>
    match env.qualityOptions with
    | .error _ => ⟨false, log, none⟩
    | .ok opts =>
      match opts[1]? with
      | none => ⟨false, log, none⟩
      | some el =>
        match env.optionClick el with
        | .error _ => ⟨false, log, some el⟩
        | .ok _ =>
          match env.qualityMetrics with
          | .error _ => ⟨false, log, some el⟩
          | .ok m => ⟨true, log ++ [m], some el⟩

/-- `VideoStreamTest.test_seek`: set `currentTime = 2`, sleep, collect
metrics, append them and return `abs(playback_time - 2) < 1`; any exception
is caught and the method returns `False`. -/
def test_seek (env : Env) (log : List StreamMetrics) :
    Bool × List StreamMetrics :=
  match env.seekScript with
  | .error _ => (false, log)
  | .ok _ =>
    match env.seekMetrics with
    | .error _ => (false, log)
    | .ok m => (decide (ratAbs (m.playback_time - 2) < 1), log ++ [m])

/-- The dict `run_all_tests` builds, in insertion order
playback_test, quality_test, seek_test. -/
structure RunResults where
  playback_test : Bool
  quality_test : Bool
  seek_test : Bool
deriving DecidableEq

/-- `VideoStreamTest.run_all_tests`: run the three checks in order (the
metrics log starts empty and is threaded through them), then
`save_report` (whose file write may raise, propagating out), then return
the results dict together with the final metrics log. -/
def run_all_tests (env : Env) :
    Except Err (RunResults × List StreamMetrics) :=
  let p := test_playback_start env []
  let q := test_quality_switch env p.2
  let s := test_seek env q.log
  match env.saveOk with
  | .error e => .error e
  | .ok _ => .ok (⟨p.1, q.passed, s.1⟩, s.2)

/-- The (name, status) lines `main` prints to the console:
`f"{test_name}: {'PASS' if result else 'FAIL'}"` over the results dict. -/
def printedPairs (r : RunResults) : List (String × String) :=
  [("playback_test", if r.playback_test then "PASS" else "FAIL"),
   ("quality_test", if r.quality_test then "PASS" else "FAIL"),
   ("seek_test", if r.seek_test then "PASS" else "FAIL")]

/-- `vars(m)` of one `StreamMetrics` dataclass instance, in field order. -/
def metricsJson (m : StreamMetrics) : Json :=
  .obj [("buffer_count", .num m.buffer_count),
        ("playback_time", .num m.playback_time),
        ("current_quality", .str m.current_quality),
        ("timestamp", .str m.timestamp)]

/-- The JSON value `VideoStreamTest.save_report` writes: an object with
exactly the keys url, timestamp and metrics_log. -/
def save_report_json (url ts : String) (log : List StreamMetrics) : Json :=
  .obj [("url", .str url),
        ("timestamp", .str ts),
        ("metrics_log", .arr (log.map metricsJson))]

/-- What `main` leaves behind: the console (name, status) lines it printed
(empty when an exception was caught before printing), the exception caught
by its `except` clause if any, and whether the `finally` block ran
`tester.cleanup()` (that is, `driver.quit()`). -/
structure VTMainOutcome where
  printed : List (String × String)
  caught : Option Err
  quit : Bool
deriving DecidableEq

/-- `main` of video_test.py: `setup` (navigation plus the wait for the video
element) may raise; then `run_all_tests`; the results are printed; any
exception is caught and logged; the `finally` block always quits the
driver. -/
def vt_main (setup : Except Err Unit) (env : Env) : VTMainOutcome :=
  match setup with
  | .error e => ⟨[], some e, true⟩
  | .ok _ =>
    match run_all_tests env with
    | .error e => ⟨[], some e, true⟩
    | .ok (r, _) => ⟨printedPairs r, none, true⟩

/-- The body of the `try` block of `test_playback_start`, with the raise
propagating (uncaught) instead of being converted to `False`. -/
def playbackBody (env : Env) (log : List StreamMetrics) :
    Except Err (Bool × List StreamMetrics) :=
  match env.playScript with
  | .error e => .error e
  | .ok _ =>
    match env.playMetrics with
    | .error e => .error e
    | .ok m => .ok (decide (0 < m.playback_time), log ++ [m])

/-- The body of the `try` block of `test_quality_switch`, with the raise
(including the `IndexError` from `quality_options[1]`) propagating. -/
def qualityBody (env : Env) (log : List StreamMetrics) :
    Except Err QualityOutcome :=
  match env.selectorClick with
  | .error e => .error e
  | .ok _ =>
    match env.qualityOptions with
    | .error e => .error e
    | .ok opts =>
      match opts[1]? with
      | none => .error .indexError
      | some el =>
        match env.optionClick el with
        | .error e => .error e
        | .ok _ =>
          match env.qualityMetrics with
          | .error e => .error e
          | .ok m => .ok ⟨true, log ++ [m], some el⟩

/-- The body of the `try` block of `test_seek`, with the raise
propagating. -/
def seekBody (env : Env) (log : List StreamMetrics) :
    Except Err (Bool × List StreamMetrics) :=
  match env.seekScript with
  | .error e => .error e
  | .ok _ =>
    match env.seekMetrics with
    | .error e => .error e
    | .ok m => .ok (decide (ratAbs (m.playback_time - 2) < 1), log ++ [m])

/-- A metrics snapshot of a playing video at currentTime 2. -/
def mPlay : StreamMetrics := ⟨1, 2, "640x360", "t1"⟩

/-- A metrics snapshot taken after the quality switch. -/
def mQuality : StreamMetrics := ⟨1, 3, "1280x720", "t2"⟩

/-- A metrics snapshot taken after the seek to 2 seconds. -/
def mSeek : StreamMetrics := ⟨1, 2, "1280x720", "t3"⟩

/-- A run on a healthy local fixture: every driver call succeeds and three
quality options are found. -/
def envPass : Env :=
  ⟨.ok (), .ok mPlay, .ok (), .ok [⟨0⟩, ⟨1⟩, ⟨2⟩], fun _ => .ok (),
   .ok mQuality, .ok (), .ok mSeek, .ok ()⟩

/-- A run in which every driver call raises (the file write still
succeeds). -/
def envAllErr : Env :=
  ⟨.error .scriptError, .error .scriptError, .error .noSuchElement,
   .error .noSuchElement, fun _ => .error .scriptError,
   .error .scriptError, .error .scriptError, .error .scriptError, .ok ()⟩

/-- The single quality-option element of `env1opt`. -/
def elemA : Elem := ⟨0⟩

/-- A run in which the page exposes only one quality option, so
`quality_options[1]` is an `IndexError`. -/
def env1opt : Env :=
  ⟨.ok (), .ok mPlay, .ok (), .ok [elemA], fun _ => .ok (),
   .ok mQuality, .ok (), .ok mSeek, .ok ()⟩

/-- The fixture URL of the concrete run used as evidence for the report
round-trip claim. -/
def urlC1 : String := "file:///tmp/test_video.html"

/-- The concrete healthy run itself. -/
def runC1 : Except Err (RunResults × List StreamMetrics) :=
  run_all_tests envPass

/-- The console (name, status) lines printed during that run. -/
def printedC1 : List (String × String) :=
  match runC1 with
  | .ok (r, _) => printedPairs r
  | .error _ => []

/-- The JSON report written during that run. -/
def reportC1 : Json :=
  match runC1 with
  | .ok (_, log) => save_report_json urlC1 "t0" log
  | .error _ => .null

end VideoTest

namespace VideoTester2

/-- What the polling script of `wait_for_video_ready` returns for one poll:
`window.videoReady` (truthiness of the global ready flag), the status
text, `video.readyState`, and `video.error.message` (or null). -/
structure PollStatus where
  ready : Bool
  statusText : String
  readyState : Nat
  error : Option String
deriving DecidableEq

/-- Python truthiness of the `error` field: `if status['error']:` is taken
when the message is present and non-empty. -/
def errTruthy : Option String → Bool
  | none => false
  | some m => !(m == "")

/-- The success condition of one poll:
`status['ready'] and status['readyState'] >= 3`. -/
def goodPoll (s : PollStatus) : Bool :=
  s.ready && decide (3 ≤ s.readyState)

/-- The polling loop of `wait_for_video_ready`: one unit of fuel per
iteration (the real loop runs for at most `timeout` seconds with a one
second sleep per iteration).  A truthy error raises (caught by the
enclosing `except`, giving `False`); a good poll returns `True`;
exhausted fuel is the timeout raise, also caught, giving `False`. -/
def waitLoop (polls : Nat → PollStatus) : Nat → Nat → Bool
  | 0, _ => false
  | fuel + 1, i =>
    if errTruthy (polls i).error then false
    else if goodPoll (polls i) then true
    else waitLoop polls fuel (i + 1)

/-- `SimpleVideoTester.wait_for_video_ready`: first wait for the video
element to be present (a timeout there raises and is caught, giving
`False`), then run the bounded polling loop. -/
def wait_for_video_ready (videoPresent : Bool) (polls : Nat → PollStatus)
    (fuel : Nat) : Bool :=
  if videoPresent then waitLoop polls fuel 0 else false

/-- The dict the video-properties script returns. -/
structure VideoProps where
  duration : ℚ
  width : Nat
  height : Nat
  readyState : Nat
  networkState : Nat
  error : Option String
deriving DecidableEq

/-- The dict the playback-state script returns: `playing` is
`!video.paused`. -/
structure PlaybackState where
  playing : Bool
  currentTime : ℚ
  error : Option String
deriving DecidableEq

/-- The `details` payload a test entry can carry. -/
inductive Detail where
  | props : VideoProps → Detail
  | playback : PlaybackState → Detail
deriving DecidableEq

/-- One entry of `results["tests"]`.  Python dicts have no schema: the
status, details and error keys are each present or absent per entry, so
they are `Option`s here. -/
structure TestEntry where
  name : String
  status : Option String
  details : Option Detail
  error : Option String
deriving DecidableEq

/-- The `results` dict `run_test` builds and writes with `json.dump`. -/
structure Tester2Report where
  timestamp : String
  tests : List TestEntry
deriving DecidableEq

/-- Outcomes of the calls one `run_test` makes: navigation (`getPage`),
presence of the video element and the poll sequence and fuel for
`wait_for_video_ready`, the three per-check scripts, and the report file
write (`saveOk`). -/
structure Behavior where
  getPage : Except Err Unit
  videoPresent : Bool
  polls : Nat → PollStatus
  fuel : Nat
  propsScript : Except Err VideoProps
  playScript : Except Err Unit
  playbackScript : Except Err PlaybackState
  saveOk : Except Err Unit
  timestamp : String

/-- The Video Properties entry `run_test` appends when the video is ready:
on success the dict has only name and details (no status key); on an
exception it has status FAIL and the error message. -/
def propsEntry (b : Behavior) : TestEntry :=
  match b.propsScript with
  | .ok p => ⟨"Video Properties", none, some (.props p), none⟩
  | .error e => ⟨"Video Properties", some "FAIL", none, some e.message⟩

/-- The Video Playback entry: play, sleep, read the playback state; PASS
exactly when `playing`; an exception anywhere in the try block gives a
FAIL entry with the error message. -/
def playEntry (b : Behavior) : TestEntry :=
  match b.playScript with
  | .error e => ⟨"Video Playback", some "FAIL", none, some e.message⟩
  | .ok _ =>
    match b.playbackScript with
    | .error e => ⟨"Video Playback", some "FAIL", none, some e.message⟩
    | .ok ps =>
      ⟨"Video Playback", some (if ps.playing then "PASS" else "FAIL"),
       some (.playback ps), none⟩

/-- The body of the `try` of the playback check with the raise
propagating (play, then the playback-state script). -/
def playBody (b : Behavior) : Except Err PlaybackState :=
  match b.playScript with
  | .error e => .error e
  | .ok _ => b.playbackScript

/-- What `run_test` leaves behind: the value it returns or the exception
that propagated out of it, and whether the `finally` block ran
`driver.quit()`. -/
structure RunOutcome where
  result : Except Err Tester2Report
  quitCalled : Bool

/-- `SimpleVideoTester.run_test`: navigate (an exception propagates, after
the `finally`), run the Load/Ready check and append its entry, run the
properties and playback checks only when the video became ready, write
the report (a file-write exception propagates, after the `finally`), and
return the results.  The `finally` block quits the driver on every
path. -/
def run_test (b : Behavior) : RunOutcome :=
  match b.getPage with
  | .error e => ⟨.error e, true⟩
  | .ok _ =>
    let ready := wait_for_video_ready b.videoPresent b.polls b.fuel
    let loadEntry : TestEntry :=
      ⟨"Video Loading", some (if ready then "PASS" else "FAIL"), none, none⟩
    let tests :=
      if ready then [loadEntry, propsEntry b, playEntry b] else [loadEntry]
    match b.saveOk with
    | .error e => ⟨.error e, true⟩
    | .ok _ => ⟨.ok ⟨b.timestamp, tests⟩, true⟩

/-- Number of entries in the report a run produced, when it produced one. -/
def reportTestCount : Except Err Tester2Report → Option Nat
  | .ok r => some r.tests.length
  | .error _ => none

/-- No entry of the produced report (if any) has status PASS. -/
def noPassRecorded : Except Err Tester2Report → Bool
  | .ok r => r.tests.all (fun t => !(t.status == some "PASS"))
  | .error _ => true

/-- A poll of a ready video: flag set, readyState 4, no error. -/
def readyStatus : PollStatus := ⟨true, "Video ready to play", 4, none⟩

/-- A poll of a video that never loads: flag unset, readyState 0. -/
def notReadyStatus : PollStatus := ⟨false, "Loading video...", 0, none⟩

/-- The properties of the healthy sample video. -/
def propsOk : VideoProps := ⟨10, 640, 360, 4, 1, none⟩

/-- The playback state after a successful `play()`. -/
def playingState : PlaybackState := ⟨true, 2, none⟩

/-- A run on a healthy video: ready at the first poll, both downstream
checks succeed. -/
def bReady : Behavior :=
  ⟨.ok (), true, fun _ => readyStatus, 10, .ok propsOk, .ok (),
   .ok playingState, .ok (), "t0"⟩

/-- A run on a broken source: the video never becomes ready within the
timeout. -/
def bNotReady : Behavior :=
  ⟨.ok (), true, fun _ => notReadyStatus, 10, .ok propsOk, .ok (),
   .ok playingState, .ok (), "t0"⟩

/-- A ready video whose per-check scripts all raise. -/
def bAllErr : Behavior :=
  ⟨.ok (), true, fun _ => readyStatus, 10, .error .scriptError,
   .error .scriptError, .error .scriptError, .ok (), "t0"⟩

/-- The report the healthy run `bReady` produces. -/
def rReady : Tester2Report :=
  ⟨"t0",
   [⟨"Video Loading", some "PASS", none, none⟩,
    ⟨"Video Properties", none, some (.props propsOk), none⟩,
    ⟨"Video Playback", some "PASS", some (.playback playingState), none⟩]⟩

/-- The status-less Video Properties entry of that report. -/
def tProps : TestEntry := ⟨"Video Properties", none, some (.props propsOk), none⟩

end VideoTester2

theorem ratAbs_eq_abs (q : ℚ) : ratAbs q = |q| := by
  unfold ratAbs
  split
  · exact (abs_of_neg (by assumption)).symm
  · exact (abs_of_nonneg (le_of_not_lt (by assumption))).symm

open VideoTest VideoTester2

/-- C3: in video_test.py, whenever the Playback check returns PASS, the
`StreamMetrics` entry it appended to the metrics log during that check has
`playback_time` strictly greater than 0. -/
theorem playback_pass_implies_positive_time (env : VideoTest.Env)
    (log : List StreamMetrics) (m : StreamMetrics)
    (hpass : (test_playback_start env log).1 = true)
    (hlog : (test_playback_start env log).2 = log ++ [m]) :
    0 < m.playback_time := by
  rcases hps : env.playScript with e | u
  · simp [test_playback_start, hps] at hpass
  · rcases hm : env.playMetrics with e | m0
    · simp [test_playback_start, hps, hm] at hpass
    · simp [test_playback_start, hps, hm] at hpass hlog
      exact hlog ▸ hpass

/-- C3 witness: the theorem applied to a concrete healthy run whose
playback metrics snapshot records currentTime 2. -/
theorem playback_pass_implies_positive_time_witness :
    0 < VideoTest.mPlay.playback_time :=
  playback_pass_implies_positive_time envPass [] mPlay rfl rfl

/-- C5: in video_test.py, when neither the seek script nor the metrics
collection raises, the Seek check (target 2.0 s) returns PASS if and only
if the recorded playback_time is within strictly less than 1.0 of 2.0. -/
theorem seek_pass_iff_within_tolerance (env : VideoTest.Env)
    (log : List StreamMetrics) (m : StreamMetrics)
    (hseek : env.seekScript = .ok ()) (hm : env.seekMetrics = .ok m) :
    ((test_seek env log).1 = true ↔ |m.playback_time - 2| < 1) := by
  simp [test_seek, hseek, hm, ratAbs_eq_abs]

/-- C5 witness: the theorem applied to a concrete run whose seek metrics
snapshot records currentTime 2. -/
theorem seek_pass_iff_within_tolerance_witness :
    ((test_seek envPass []).1 = true ↔ |VideoTest.mSeek.playback_time - 2| < 1) :=
  seek_pass_iff_within_tolerance envPass [] mSeek rfl rfl

/-- C7: in both scripts the driver's quit is invoked on every run: in
video_test.py `main` runs `tester.cleanup()` in its `finally` block, and in
video_tester2.py `run_test` quits the driver in its `finally` block, on
every path including those where a check or the report write raises. -/
theorem driver_quit_always_invoked (s : Except Err Unit)
    (env : VideoTest.Env) (b : Behavior) :
    (vt_main s env).quit = true ∧ (run_test b).quitCalled = true := by
  constructor
  · rcases s with e | u
    · rfl
    · rcases h : run_all_tests env with e | p
      · simp [vt_main, h]
      · rcases p with ⟨r, lg⟩
        simp [vt_main, h]
  · rcases hg : b.getPage with e | u
    · simp [run_test, hg]
    · rcases hs : b.saveOk with e | u <;>
        cases hready : wait_for_video_ready b.videoPresent b.polls b.fuel <;>
          simp [run_test, hg, hs, hready]

/-- C10: in video_test.py the quality-switch check always targets the
option at index 1 (the element it clicks is `quality_options[1]`, i.e.
`opts.get? 1`), and whenever fewer than two elements match the selector
the `IndexError` is caught and the check returns False with the metrics
log unchanged, so the check is total in the number of options found. -/
theorem quality_switch_selects_second_option (env : VideoTest.Env)
    (log : List StreamMetrics) (opts : List Elem)
    (hsel : env.selectorClick = .ok ()) (hopts : env.qualityOptions = .ok opts) :
    (test_quality_switch env log).clicked = opts[1]?
    ∧ (opts.length < 2 → test_quality_switch env log = ⟨false, log, none⟩) := by
  constructor
  · rcases hg : opts[1]? with _ | el
    · simp [test_quality_switch, hsel, hopts, hg]
    · rcases hc : env.optionClick el with e | u <;>
        rcases hmx : env.qualityMetrics with e2 | m <;>
          simp [test_quality_switch, hsel, hopts, hg, hc, hmx]
  · intro hlen
    have hg : opts[1]? = none := by
      rw [List.getElem?_eq_none_iff]
      omega
    simp [test_quality_switch, hsel, hopts, hg]

/-- C10 witness: the theorem applied to a concrete run in which the page
exposes a single quality option. -/
theorem quality_switch_selects_second_option_witness :
    ((test_quality_switch env1opt []).clicked = [elemA][1]?)
    ∧ test_quality_switch env1opt [] = ⟨false, [], none⟩ := by
  have h := quality_switch_selects_second_option env1opt [] [elemA] rfl rfl
  exact ⟨h.1, h.2 (by decide)⟩

theorem waitLoop_true_iff (polls : Nat → PollStatus) :
    ∀ fuel i, waitLoop polls fuel i = true ↔
      ∃ k, k < fuel ∧ errTruthy (polls (i + k)).error = false
        ∧ goodPoll (polls (i + k)) = true
        ∧ ∀ j, j < k → errTruthy (polls (i + j)).error = false
            ∧ goodPoll (polls (i + j)) = false := by
  intro fuel
  induction fuel with
  | zero =>
    intro i
    constructor
    · intro h
      simp [waitLoop] at h
    · rintro ⟨k, hk, -⟩
      exact absurd hk (Nat.not_lt_zero k)
  | succ n ih =>
    intro i
    cases he : errTruthy (polls i).error with
    | true =>
      constructor
      · intro h
        simp [waitLoop, he] at h
      · rintro ⟨k, hk, hke, hkg, hmin⟩
        exfalso
        cases k with
        | zero => simp [he] at hke
        | succ k0 =>
          have h0 := (hmin 0 (Nat.succ_pos k0)).1
          simp [he] at h0
    | false =>
      cases hg : goodPoll (polls i) with
      | true =>
        constructor
        · intro _
          refine ⟨0, Nat.succ_pos n, ?_, ?_, ?_⟩
          · simpa using he
          · simpa using hg
          · intro j hj
            exact absurd hj (Nat.not_lt_zero j)
        · intro _
          simp [waitLoop, he, hg]
      | false =>
        have hstep : waitLoop polls (n + 1) i = waitLoop polls n (i + 1) := by
          simp [waitLoop, he, hg]
        rw [hstep, ih (i + 1)]
        constructor
        · rintro ⟨k, hk, hke, hkg, hmin⟩
          refine ⟨k + 1, by omega, ?_, ?_, ?_⟩
          · rw [show i + (k + 1) = i + 1 + k by omega]
            exact hke
          · rw [show i + (k + 1) = i + 1 + k by omega]
            exact hkg
          · intro j hj
            cases j with
            | zero =>
              constructor
              · simpa using he
              · simpa using hg
            | succ j0 =>
              have h2 := hmin j0 (by omega)
              constructor
              · rw [show i + (j0 + 1) = i + 1 + j0 by omega]
                exact h2.1
              · rw [show i + (j0 + 1) = i + 1 + j0 by omega]
                exact h2.2
        · rintro ⟨k, hk, hke, hkg, hmin⟩
          cases k with
          | zero =>
            exfalso
            simp [hg] at hkg
          | succ k0 =>
            refine ⟨k0, by omega, ?_, ?_, ?_⟩
            · rw [show i + 1 + k0 = i + (k0 + 1) by omega]
              exact hke
            · rw [show i + 1 + k0 = i + (k0 + 1) by omega]
              exact hkg
            · intro j hj
              have h2 := hmin (j + 1) (by omega)
              constructor
              · rw [show i + 1 + j = i + (j + 1) by omega]
                exact h2.1
              · rw [show i + 1 + j = i + (j + 1) by omega]
                exact h2.2

/-- C8: `wait_for_video_ready` (with the video element present) polls under
its fuel bound and returns True exactly when some poll within the bound has
the ready flag set and readyState at least 3 (`goodPoll`), with no earlier
poll reporting a truthy video error or already qualifying; in every other
case, i.e. when the bound elapses first or a video error is reported
before the video qualifies, it returns False. -/
theorem load_ready_check_characterization (polls : Nat → PollStatus)
    (fuel : Nat) :
    wait_for_video_ready true polls fuel = true ↔
      ∃ k, k < fuel ∧ errTruthy (polls k).error = false
        ∧ goodPoll (polls k) = true
        ∧ ∀ j, j < k → errTruthy (polls j).error = false
            ∧ goodPoll (polls j) = false := by
  have h := waitLoop_true_iff polls fuel 0
  simpa [wait_for_video_ready] using h

theorem waitLoop_false_of_never_good (polls : Nat → PollStatus)
    (h : ∀ i, goodPoll (polls i) = false) :
    ∀ fuel i, waitLoop polls fuel i = false := by
  intro fuel
  induction fuel with
  | zero =>
    intro i
    rfl
  | succ n ih =>
    intro i
    cases he : errTruthy (polls i).error <;> simp [waitLoop, he, h i, ih]

/-- C9: in video_tester2.py, on a broken source whose polls never qualify
as ready, a run whose navigation and report write succeed records exactly
one test entry, Video Loading with status FAIL; in particular no
downstream check runs, so no entry of the report carries a PASS. -/
theorem broken_source_fails_loading_only (b : Behavior)
    (hget : b.getPage = .ok ()) (hsave : b.saveOk = .ok ())
    (hbroken : ∀ i, goodPoll (b.polls i) = false) :
    (run_test b).result =
      .ok ⟨b.timestamp, [⟨"Video Loading", some "FAIL", none, none⟩]⟩
    ∧ noPassRecorded (run_test b).result = true := by
  have hw : wait_for_video_ready b.videoPresent b.polls b.fuel = false := by
    cases hv : b.videoPresent
    · simp [wait_for_video_ready, hv]
    · simp [wait_for_video_ready, hv,
        waitLoop_false_of_never_good b.polls hbroken b.fuel 0]
  have h1 : (run_test b).result =
      .ok ⟨b.timestamp, [⟨"Video Loading", some "FAIL", none, none⟩]⟩ := by
    simp [run_test, hget, hsave, hw]
  refine ⟨h1, ?_⟩
  rw [h1]
  rfl

/-- C9 witness: the theorem applied to a concrete run whose ten polls all
report an unready video. -/
theorem broken_source_fails_loading_only_witness :
    (run_test bNotReady).result =
      .ok ⟨bNotReady.timestamp, [⟨"Video Loading", some "FAIL", none, none⟩]⟩
    ∧ noPassRecorded (run_test bNotReady).result = true :=
  broken_source_fails_loading_only bNotReady rfl rfl (fun _ => rfl)

/-- C1 (code-bug evidence): in the concrete healthy run `envPass` of
video_test.py the console printed the three test names with status PASS,
while the JSON report `save_report` wrote for the same run mentions none of
the printed test names and neither status string anywhere (it holds only
the url, the timestamp and the metrics log), so deserializing the written
file cannot reproduce the printed names and statuses. -/
theorem report_omits_printed_results :
    printedC1 = [("playback_test", "PASS"), ("quality_test", "PASS"),
      ("seek_test", "PASS")]
    ∧ Json.mentionsF "playback_test" 5 reportC1 = false
    ∧ Json.mentionsF "quality_test" 5 reportC1 = false
    ∧ Json.mentionsF "seek_test" 5 reportC1 = false
    ∧ Json.mentionsF "PASS" 5 reportC1 = false
    ∧ Json.mentionsF "FAIL" 5 reportC1 = false := by
  have hrun : runC1 =
      Except.ok (⟨true, true, true⟩, [mPlay, mQuality, mSeek]) := by
    norm_num [runC1, run_all_tests, test_playback_start, test_quality_switch,
      test_seek, envPass, mPlay, mQuality, mSeek, ratAbs]
  have hprint : printedC1 = printedPairs ⟨true, true, true⟩ := by
    unfold printedC1
    rw [hrun]
  have hrep : reportC1 = save_report_json urlC1 "t0" [mPlay, mQuality, mSeek] := by
    unfold reportC1
    rw [hrun]
  refine ⟨?_, ?_, ?_, ?_, ?_, ?_⟩
  · rw [hprint]
    rfl
  · rw [hrep]
    rfl
  · rw [hrep]
    rfl
  · rw [hrep]
    rfl
  · rw [hrep]
    rfl
  · rw [hrep]
    rfl

/-- C2 counterexample: a concrete video_tester2.py run on a source that
never becomes ready writes a report whose tests list has length 1, not the
configured number of checks (3, and not 4 either). -/
theorem report_test_count_cex :
    reportTestCount (run_test bNotReady).result = some 1
    ∧ some (1 : Nat) ≠ some 3 ∧ some (1 : Nat) ≠ some 4 :=
  ⟨rfl, by decide, by decide⟩

/-- C2 amended: for video_tester2.py runs whose navigation and report write
succeed, the report's tests list has length 3 when the Load/Ready check
passes and length 1 when it fails; the report video_test.py writes carries
no test list at all (its top-level keys are url, timestamp and
metrics_log). -/
theorem report_test_count (b : Behavior) (url ts : String)
    (log : List StreamMetrics)
    (hget : b.getPage = .ok ()) (hsave : b.saveOk = .ok ()) :
    reportTestCount (run_test b).result =
      some (if wait_for_video_ready b.videoPresent b.polls b.fuel then 3 else 1)
    ∧ Json.topKeys (save_report_json url ts log) =
      ["url", "timestamp", "metrics_log"] := by
  constructor
  · cases hready : wait_for_video_ready b.videoPresent b.polls b.fuel <;>
      simp [run_test, hget, hsave, hready, reportTestCount]
  · rfl

/-- C2 witness: the amended count theorem applied to the concrete healthy
run `bReady`. -/
theorem report_test_count_witness :
    reportTestCount (run_test bReady).result =
      some (if wait_for_video_ready bReady.videoPresent bReady.polls
        bReady.fuel then 3 else 1)
    ∧ Json.topKeys (save_report_json "u" "t" []) =
      ["url", "timestamp", "metrics_log"] :=
  report_test_count bReady "u" "t" [] rfl rfl

/-- C4 counterexample: in the concrete healthy run `bReady` the Video
Properties entry collected into the report has no status value at all
(`none`), which is neither PASS nor FAIL. -/
theorem properties_status_absent_cex :
    (run_test bReady).result = .ok rReady
    ∧ rReady.tests[1]? = some tProps
    ∧ tProps.status = none
    ∧ (none : Option String) ≠ some "PASS"
    ∧ (none : Option String) ≠ some "FAIL" :=
  ⟨rfl, rfl, rfl, by decide, by decide⟩

/-- C4 amended: every test entry video_tester2.py collects has status
absent, PASS or FAIL, and the only entry whose status can be absent is the
Video Properties entry (whose success path omits the status key). -/
theorem report_status_values (b : Behavior) (r : Tester2Report)
    (t : TestEntry) (hres : (run_test b).result = .ok r)
    (hmem : t ∈ r.tests) :
    (t.status = none ∨ t.status = some "PASS" ∨ t.status = some "FAIL")
    ∧ (t.status = none → t.name = "Video Properties") := by
  rcases hget : b.getPage with e | u
  · simp [run_test, hget] at hres
  · rcases hsave : b.saveOk with e | u2
    · simp [run_test, hget, hsave] at hres
    · cases hready : wait_for_video_ready b.videoPresent b.polls b.fuel
      · have h1 : (run_test b).result =
            .ok (⟨b.timestamp,
              [⟨"Video Loading", some "FAIL", none, none⟩]⟩ : Tester2Report) := by
          simp [run_test, hget, hsave, hready]
        rw [h1] at hres
        have hr := Except.ok.inj hres
        rw [← hr] at hmem
        simp at hmem
        subst hmem
        simp
      · have h1 : (run_test b).result =
            .ok (⟨b.timestamp,
              [⟨"Video Loading", some "PASS", none, none⟩,
               propsEntry b, playEntry b]⟩ : Tester2Report) := by
          simp [run_test, hget, hsave, hready]
        rw [h1] at hres
        have hr := Except.ok.inj hres
        rw [← hr] at hmem
        simp at hmem
        rcases hmem with h | h | h
        · subst h
          simp
        · subst h
          rcases hp : b.propsScript with e2 | p <;> simp [propsEntry, hp]
        · subst h
          rcases hps : b.playScript with e2 | u3
          · simp [playEntry, hps]
          · rcases hpb : b.playbackScript with e3 | ps
            · simp [playEntry, hps, hpb]
            · cases hpl : ps.playing <;> simp [playEntry, hps, hpb, hpl]

/-- C4 witness: the amended theorem applied to the Video Properties entry
of the concrete healthy run `bReady` (whose status is indeed absent). -/
theorem report_status_values_witness :
    (tProps.status = none ∨ tProps.status = some "PASS"
      ∨ tProps.status = some "FAIL")
    ∧ tProps.name = "Video Properties" := by
  have h := report_status_values bReady rReady tProps rfl (by decide)
  exact ⟨h.1, h.2 rfl⟩

/-- C6: every check-level function converts each exception its try-block
body can raise into its failure outcome instead of propagating it: the
three video_test.py checks return False with the metrics log unchanged
whenever their bodies raise, the video_tester2.py properties and playback
checks record a FAIL entry whenever their bodies raise, and `run_test`
returns normally exactly when navigation and the report write succeed, so
no exception raised inside a check ever escapes the runner. -/
theorem checks_contain_driver_errors (env : VideoTest.Env)
    (log : List StreamMetrics) (b : Behavior) :
    ((playbackBody env log).isOk = false →
      test_playback_start env log = (false, log))
    ∧ ((qualityBody env log).isOk = false →
      (test_quality_switch env log).passed = false
        ∧ (test_quality_switch env log).log = log)
    ∧ ((seekBody env log).isOk = false → test_seek env log = (false, log))
    ∧ (b.propsScript.isOk = false → (propsEntry b).status = some "FAIL")
    ∧ ((playBody b).isOk = false → (playEntry b).status = some "FAIL")
    ∧ (run_test b).result.isOk = (b.getPage.isOk && b.saveOk.isOk) := by
  refine ⟨?_, ?_, ?_, ?_, ?_, ?_⟩
  · intro h
    rcases hps : env.playScript with e | u
    · simp [test_playback_start, hps]
    · rcases hm : env.playMetrics with e | m
      · simp [test_playback_start, hps, hm]
      · simp [playbackBody, hps, hm, Except.isOk, Except.toBool] at h
  · intro h
    rcases hsel : env.selectorClick with e | u
    · simp [test_quality_switch, hsel]
    · rcases hopts : env.qualityOptions with e | opts
      · simp [test_quality_switch, hsel, hopts]
      · rcases hg : opts[1]? with _ | el
        · simp [test_quality_switch, hsel, hopts, hg]
        · rcases hc : env.optionClick el with e | u2
          · simp [test_quality_switch, hsel, hopts, hg, hc]
          · rcases hmx : env.qualityMetrics with e | m
            · simp [test_quality_switch, hsel, hopts, hg, hc, hmx]
            · simp [qualityBody, hsel, hopts, hg, hc, hmx, Except.isOk, Except.toBool] at h
  · intro h
    rcases hs : env.seekScript with e | u
    · simp [test_seek, hs]
    · rcases hm : env.seekMetrics with e | m
      · simp [test_seek, hs, hm]
      · simp [seekBody, hs, hm, Except.isOk, Except.toBool] at h
  · intro h
    rcases hp : b.propsScript with e | p
    · simp [propsEntry, hp]
    · simp [hp, Except.isOk, Except.toBool] at h
  · intro h
    rcases hps : b.playScript with e | u
    · simp [playEntry, hps]
    · rcases hpb : b.playbackScript with e | ps
      · simp [playEntry, hps, hpb]
      · simp [playBody, hps, hpb, Except.isOk, Except.toBool] at h
  · rcases hget : b.getPage with e | u
    · simp [run_test, hget, Except.isOk, Except.toBool]
    · rcases hsave : b.saveOk with e | u2 <;>
        cases hready : wait_for_video_ready b.videoPresent b.polls b.fuel <;>
          simp [run_test, hget, hsave, hready, Except.isOk, Except.toBool]

/-- C6 witness: the containment theorem applied to concrete runs in which
every driver call raises. -/
theorem checks_contain_driver_errors_witness :
    test_playback_start envAllErr [] = (false, [])
    ∧ (test_quality_switch envAllErr []).passed = false
    ∧ test_seek envAllErr [] = (false, [])
    ∧ (propsEntry bAllErr).status = some "FAIL"
    ∧ (playEntry bAllErr).status = some "FAIL"
    ∧ (run_test bAllErr).result.isOk =
        (bAllErr.getPage.isOk && bAllErr.saveOk.isOk) := by
  have h := checks_contain_driver_errors envAllErr [] bAllErr
  exact ⟨h.1 rfl, (h.2.1 rfl).1, h.2.2.1 rfl, h.2.2.2.1 rfl,
    h.2.2.2.2.1 rfl, h.2.2.2.2.2⟩
